import Mathlib

/-!
Verification of the esptool wrapper scripts (ESP01 / ESP8266 / ESP32 flashers).

The Python scripts build shell command strings and hand them to an external
tool via `subprocess.run`.  We embed them shallowly:

* the filesystem is a map from path to optional byte content (`FS`);
  `os.path.exists p` is `(fs p).isSome`, `os.path.getsize p` is the length
  of the content;
* one `subprocess.run` invocation is an opaque outcome (`SpawnOutcome`):
  either the child process completed with a return code / stdout / stderr,
  or the spawn raised an `OSError` / `SubprocessError`;
* a retrying command execution consumes an oracle `ExecOracle` giving the
  outcome of each attempt, indexed by the current retry counter;
* every flasher method returns its boolean result together with the list of
  command lines it handed to `subprocess.run`, in order, so that claims of
  the form "no external process is spawned" are statements about that list.

`subprocess.run(cmd, check=True)` raises `CalledProcessError` whenever the
return code of the child is nonzero; with `check=False` it returns the completed
process.  This distinction is modelled faithfully in `runCmdLoop`.
-/

/-- Result of a completed child process: `returncode`, `stdout`, `stderr`. -/
structure ProcResult where
  returncode : Int
  stdout : String
  stderr : String
deriving DecidableEq

/-- Outcome of one `subprocess.run` spawn: the child completed, or the spawn
itself raised (`OSError` / `subprocess.SubprocessError`). -/
inductive SpawnOutcome where
  | completed : ProcResult → SpawnOutcome
  | raised : SpawnOutcome
deriving DecidableEq

/-- Oracle giving the outcome of each execution attempt, indexed by the retry
counter at which the attempt happens. -/
abbrev ExecOracle := Nat → SpawnOutcome

/-- A filesystem: path to optional byte content.  `none` means the path does
not exist. -/
abbrev FS := String → Option (List Nat)

/-- Python `os.remove`: drop one path from the filesystem. -/
def removeFile (fs : FS) (p : String) : FS := fun q => if q = p then none else fs q

/-- Python `str.lower()` on the character list of a Python string. -/
def lowerStr (s : String) : List Char := s.toList.map Char.toLower

/-- Does list `sub` occur at the head of `l`?  (Python `startswith`.) -/
def listLeads {α : Type} [DecidableEq α] : List α → List α → Bool
  | [], _ => true
  | _ :: _, [] => false
  | a :: s, b :: t => if a = b then listLeads s t else false

/-- Does list `sub` occur contiguously inside `l`?  (Python `in`.) -/
def containsSeg {α : Type} [DecidableEq α] (sub : List α) : List α → Bool
  | [] => decide (sub = [])
  | a :: t => listLeads sub (a :: t) || containsSeg sub t

/-- Python `sub in s` on strings. -/
def strContainsB (s sub : String) : Bool := containsSeg sub.data s.data

/-- List `sub` occurs contiguously inside `l` (propositional form). -/
def SubSeg {α : Type} (sub l : List α) : Prop := ∃ a b, l = a ++ sub ++ b

/-- Substring `sub` occurs contiguously inside string `s` (propositional form). -/
def StrContains (s sub : String) : Prop := SubSeg sub.data s.data

/-- The transient-failure test of `run_command`:
`"timeout" in result.stderr.lower() or "connection" in result.stderr.lower()`. -/
def transientError (s : String) : Bool :=
  containsSeg "timeout".toList (lowerStr s) || containsSeg "connection".toList (lowerStr s)

/-- Python `f"{n:08x}"`: lowercase hex, zero-padded to (at least) 8 digits. -/
def hex8 (n : Nat) : String :=
  let ds := Nat.toDigits 16 n
  ⟨List.replicate (8 - ds.length) '0' ++ ds⟩

/-- The shared retrying executor of `ESP01Flasher.run_command` and
`ESP8266Flasher.run_command`:

```
try:
    result = subprocess.run(cmd, shell=True, capture_output=True, text=True, check=check)
    if result.returncode == 0:
        return True
    else:
        if retries < self.max_retries and ("timeout" in result.stderr.lower()
                                           or "connection" in result.stderr.lower()):
            time.sleep(2)
            return self.run_command(cmd, check, retries + 1)
        return False
except subprocess.CalledProcessError:   # raised by run itself when check=True
    return False
except (OSError, subprocess.SubprocessError):
    return False
```

With `check=True` a nonzero return code makes `subprocess.run` raise
`CalledProcessError` before the `if result.returncode == 0` test, so the
retry branch is reachable only with `check=False`.  The second component of
the result is the list of command lines spawned. -/
def runCmdGo (cmd : String) (check : Bool) (exec : ExecOracle) :
    Nat → Nat → Bool × List String
  | fuel, retries =>
    match exec retries with
    | .raised => (false, [cmd])
    | .completed r =>
        if r.returncode = 0 then (true, [cmd])
        else if check then (false, [cmd])
        else
          match fuel with
          | f + 1 =>
              if transientError r.stderr then
                let rest := runCmdGo cmd check exec f (retries + 1)
                (rest.1, cmd :: rest.2)
              else (false, [cmd])
          | 0 => (false, [cmd])

/-- Entry point matching the signature of the source: the remaining budget
`maxRetries - retries` is carried structurally (`0 < fuel` is exactly the
guard `retries < self.max_retries` of the source). -/
def runCmdLoop (maxRetries : Nat) (cmd : String) (check : Bool) (exec : ExecOracle)
    (retries : Nat) : Bool × List String :=
  runCmdGo cmd check exec (maxRetries - retries) retries

/-- ESP01 flasher: `self.flash_size = "1MB"`, `self.flash_mode = "dio"`,
`self.flash_freq = "40m"`, `self.max_retries = 3`. -/
structure ESP01Flasher where
  port : String
  baud : Nat

namespace ESP01Flasher

def flash_size (_ : ESP01Flasher) : String := "1MB"

def flash_mode (_ : ESP01Flasher) : String := "dio"

def flash_freq (_ : ESP01Flasher) : String := "40m"

def max_retries (_ : ESP01Flasher) : Nat := 3

/-- Python `run_command` of `ESP01Flasher` (delegates to the shared loop with
`self.max_retries = 3`). -/
def run_command (fl : ESP01Flasher) (cmd : String) (check : Bool) (exec : ExecOracle)
    (retries : Nat) : Bool × List String :=
  runCmdLoop fl.max_retries cmd check exec retries

/-- Python `f"esptool.py --port {self.port} --baud {self.baud}"`, the common head of
every esptool command line. -/
def base (fl : ESP01Flasher) : String :=
  "esptool.py --port " ++ fl.port ++ " --baud " ++ toString fl.baud

/-- Python `check_esptool`: runs `python -m esptool version` with `check=False`. -/
def check_esptool (fl : ESP01Flasher) (exec : ExecOracle) : Bool × List String :=
  fl.run_command "python -m esptool version" false exec 0

/-- Python `get_chip_info`: `... chip-id`, `check=True` (default). -/
def get_chip_info (fl : ESP01Flasher) (exec : ExecOracle) : Bool × List String :=
  fl.run_command (fl.base ++ " chip-id") true exec 0

/-- Python `get_flash_id`: `... flash-id`. -/
def get_flash_id (fl : ESP01Flasher) (exec : ExecOracle) : Bool × List String :=
  fl.run_command (fl.base ++ " flash-id") true exec 0

/-- Python `get_mac_address`: `... read-mac`. -/
def get_mac_address (fl : ESP01Flasher) (exec : ExecOracle) : Bool × List String :=
  fl.run_command (fl.base ++ " read-mac") true exec 0

/-- The command line of `read_flash`. -/
def read_flash_cmd (fl : ESP01Flasher) (output_file : String) (start size : Nat)
    (progress : Bool) : String :=
  fl.base ++ " " ++ (if progress then "--progress" else "") ++ " read-flash "
    ++ hex8 start ++ " " ++ hex8 size ++ " " ++ output_file

/-- Python `read_flash(output_file, start, size, progress)`. -/
def read_flash (fl : ESP01Flasher) (output_file : String) (start size : Nat)
    (progress : Bool) (exec : ExecOracle) : Bool × List String :=
  fl.run_command (fl.read_flash_cmd output_file start size progress) true exec 0

/-- Python default of the `verify` parameter of `write_flash`
(`def write_flash(self, firmware_file, address=0x00000, verify=True, ...)`). -/
def write_flash_verify_default : Bool := true

/-- The command line of `write_flash`. -/
def write_flash_cmd (fl : ESP01Flasher) (firmware_file : String) (address : Nat)
    (verify progress erase_all : Bool) : String :=
  fl.base ++ " " ++ (if progress then "--progress" else "")
    ++ " write-flash --flash-mode " ++ fl.flash_mode
    ++ " --flash-freq " ++ fl.flash_freq
    ++ " --flash-size " ++ fl.flash_size
    ++ " " ++ (if verify then "--verify" else "")
    ++ " " ++ (if erase_all then "--erase-all" else "")
    ++ " " ++ hex8 address ++ " " ++ firmware_file

/-- Python `write_flash(firmware_file, address, verify, progress, erase_all)`:
rejects a missing file, then rejects `getsize > 0x100000` (1MB), and only
then spawns the esptool command. -/
def write_flash (fl : ESP01Flasher) (fs : FS) (firmware_file : String) (address : Nat)
    (verify progress erase_all : Bool) (exec : ExecOracle) : Bool × List String :=
  match fs firmware_file with
  | none => (false, [])
  | some content =>
      if content.length > 0x100000 then (false, [])
      else fl.run_command (fl.write_flash_cmd firmware_file address verify progress erase_all)
        true exec 0

/-- Python `erase_flash`: `... erase-flash`. -/
def erase_flash (fl : ESP01Flasher) (exec : ExecOracle) : Bool × List String :=
  fl.run_command (fl.base ++ " erase-flash") true exec 0

/-- Python `backup_firmware(backup_file)`: `read_flash` with all defaults
(`start=0x00000, size=0x100000, progress=True`). -/
def backup_firmware (fl : ESP01Flasher) (backup_file : String) (exec : ExecOracle) :
    Bool × List String :=
  fl.read_flash backup_file 0x00000 0x100000 true exec

/-- Python `write_at_firmware(at_firmware_file, verify)`:
`write_flash(at_firmware_file, 0x00000, verify)` with default
`progress=True, erase_all=False`. -/
def write_at_firmware (fl : ESP01Flasher) (fs : FS) (at_firmware_file : String)
    (verify : Bool) (exec : ExecOracle) : Bool × List String :=
  fl.write_flash fs at_firmware_file 0x00000 verify true false exec

/-- Python `verify_flash(firmware_file, address, size)`: read the flash back into
`temp_verification.bin` (with `progress=False`), then compare the two files
byte for byte and delete the temporary file on the comparison paths.

`fsAfterRead` is the filesystem as the read-back attempt left it (the
external tool, not this script, creates the file).  An unreadable path in
the comparison (`open` raising `OSError`/`IOError`) is modelled as a missing
file.  The third component is the filesystem after the call returns. -/
def verify_flash (fl : ESP01Flasher) (firmware_file : String) (address size : Nat)
    (fsAfterRead : FS) (exec : ExecOracle) : Bool × List String × FS :=
  let temp_file := "temp_verification.bin"
  let rd := fl.read_flash temp_file address size false exec
  if rd.1 = false then (false, rd.2, fsAfterRead)
  else
    match fsAfterRead firmware_file, fsAfterRead temp_file with
    | some c1, some c2 =>
        if c1 = c2 then (true, rd.2, removeFile fsAfterRead temp_file)
        else (false, rd.2, removeFile fsAfterRead temp_file)
    | some _, none => (false, rd.2, fsAfterRead)
    | none, _ =>
        (false, rd.2,
          if (fsAfterRead temp_file).isSome then removeFile fsAfterRead temp_file
          else fsAfterRead)

end ESP01Flasher

/-- ESP8266 flasher: configurable `flash_size` string, `self.flash_mode =
"dout"`, `self.flash_freq = "40m"`, `self.max_retries = 3`. -/
structure ESP8266Flasher where
  port : String
  baud : Nat
  flash_size : String

namespace ESP8266Flasher

def flash_mode (_ : ESP8266Flasher) : String := "dout"

def flash_freq (_ : ESP8266Flasher) : String := "40m"

def max_retries (_ : ESP8266Flasher) : Nat := 3

/-- The `self.flash_sizes` dictionary. -/
def flash_sizes (s : String) : Option Nat :=
  if s = "1MB" then some 0x100000
  else if s = "2MB" then some 0x200000
  else if s = "4MB" then some 0x400000
  else if s = "8MB" then some 0x800000
  else if s = "16MB" then some 0x1000000
  else none

/-- Python `self.flash_sizes.get(self.flash_size, 0x400000)`. -/
def maxSizeOf (fl : ESP8266Flasher) : Nat := (flash_sizes fl.flash_size).getD 0x400000

/-- Python `run_command` of `ESP8266Flasher` (same body as the ESP01 one). -/
def run_command (fl : ESP8266Flasher) (cmd : String) (check : Bool) (exec : ExecOracle)
    (retries : Nat) : Bool × List String :=
  runCmdLoop fl.max_retries cmd check exec retries

/-- Python `f"esptool.py --port {self.port} --baud {self.baud}"`. -/
def base (fl : ESP8266Flasher) : String :=
  "esptool.py --port " ++ fl.port ++ " --baud " ++ toString fl.baud

/-- Python `check_esptool`: `python -m esptool version` with `check=False`. -/
def check_esptool (fl : ESP8266Flasher) (exec : ExecOracle) : Bool × List String :=
  fl.run_command "python -m esptool version" false exec 0

def get_chip_info (fl : ESP8266Flasher) (exec : ExecOracle) : Bool × List String :=
  fl.run_command (fl.base ++ " chip-id") true exec 0

def get_flash_id (fl : ESP8266Flasher) (exec : ExecOracle) : Bool × List String :=
  fl.run_command (fl.base ++ " flash-id") true exec 0

def get_mac_address (fl : ESP8266Flasher) (exec : ExecOracle) : Bool × List String :=
  fl.run_command (fl.base ++ " read-mac") true exec 0

/-- Python `detect_flash_size`: runs the `flash-id` command. -/
def detect_flash_size (fl : ESP8266Flasher) (exec : ExecOracle) : Bool × List String :=
  fl.run_command (fl.base ++ " flash-id") true exec 0

/-- The command line of `read_flash`. -/
def read_flash_cmd (fl : ESP8266Flasher) (output_file : String) (start size : Nat)
    (progress : Bool) : String :=
  fl.base ++ " " ++ (if progress then "--progress" else "") ++ " read-flash "
    ++ hex8 start ++ " " ++ hex8 size ++ " " ++ output_file

/-- Python `read_flash(output_file, start, size, progress)`; `size=None` resolves to
`self.flash_sizes.get(self.flash_size, 0x400000)`. -/
def read_flash (fl : ESP8266Flasher) (output_file : String) (start : Nat)
    (size : Option Nat) (progress : Bool) (exec : ExecOracle) : Bool × List String :=
  let sz := size.getD fl.maxSizeOf
  fl.run_command (fl.read_flash_cmd output_file start sz progress) true exec 0

/-- Python default of the `verify` parameter of `write_flash`. -/
def write_flash_verify_default : Bool := true

/-- The command line of `write_flash`. -/
def write_flash_cmd (fl : ESP8266Flasher) (firmware_file : String) (address : Nat)
    (verify progress erase_all : Bool) : String :=
  fl.base ++ " " ++ (if progress then "--progress" else "")
    ++ " write-flash --flash-mode " ++ fl.flash_mode
    ++ " --flash-freq " ++ fl.flash_freq
    ++ " --flash-size " ++ fl.flash_size
    ++ " " ++ (if verify then "--verify" else "")
    ++ " " ++ (if erase_all then "--erase-all" else "")
    ++ " " ++ hex8 address ++ " " ++ firmware_file

/-- Python `write_flash`: rejects a missing file, then rejects
`getsize > self.flash_sizes.get(self.flash_size, 0x400000)`, then spawns. -/
def write_flash (fl : ESP8266Flasher) (fs : FS) (firmware_file : String) (address : Nat)
    (verify progress erase_all : Bool) (exec : ExecOracle) : Bool × List String :=
  match fs firmware_file with
  | none => (false, [])
  | some content =>
      if content.length > fl.maxSizeOf then (false, [])
      else fl.run_command (fl.write_flash_cmd firmware_file address verify progress erase_all)
        true exec 0

/-- The command line of `write_multiple_files`: the `write-flash` head
followed by one ` {address:08x} {file_path}` segment per dictionary entry,
in iteration (= insertion) order. -/
def write_multiple_cmd (fl : ESP8266Flasher) (files : List (Nat × String))
    (progress : Bool) : String :=
  files.foldl (fun acc af => acc ++ " " ++ hex8 af.1 ++ " " ++ af.2)
    (fl.base ++ " " ++ (if progress then "--progress" else "")
      ++ " write-flash --flash-mode " ++ fl.flash_mode
      ++ " --flash-freq " ++ fl.flash_freq
      ++ " --flash-size " ++ fl.flash_size)

/-- Python `write_multiple_files(files_dict, progress)`: returns `False` from the
existence loop as soon as some listed file is missing (before any spawn),
otherwise spawns the single combined command.  The dictionary is embedded as
an association list in insertion order. -/
def write_multiple_files (fl : ESP8266Flasher) (fs : FS) (files : List (Nat × String))
    (progress : Bool) (exec : ExecOracle) : Bool × List String :=
  if files.all (fun af => (fs af.2).isSome) then
    fl.run_command (fl.write_multiple_cmd files progress) true exec 0
  else (false, [])

def erase_flash (fl : ESP8266Flasher) (exec : ExecOracle) : Bool × List String :=
  fl.run_command (fl.base ++ " erase-flash") true exec 0

/-- Python `backup_firmware(backup_file)`: `read_flash` with defaults
(`start=0x00000, size=None, progress=True`). -/
def backup_firmware (fl : ESP8266Flasher) (backup_file : String) (exec : ExecOracle) :
    Bool × List String :=
  fl.read_flash backup_file 0x00000 none true exec

/-- Python `verify_flash(firmware_file, address, size)`: resolve `size=None` to the
configured capacity, read back into `temp_verification.bin` with
`progress=False`, compare byte for byte, delete the temporary file on the
comparison paths.  Same modelling conventions as `ESP01Flasher.verify_flash`. -/
def verify_flash (fl : ESP8266Flasher) (firmware_file : String) (address : Nat)
    (size : Option Nat) (fsAfterRead : FS) (exec : ExecOracle) : Bool × List String × FS :=
  let sz := size.getD fl.maxSizeOf
  let temp_file := "temp_verification.bin"
  let rd := fl.read_flash temp_file address (some sz) false exec
  if rd.1 = false then (false, rd.2, fsAfterRead)
  else
    match fsAfterRead firmware_file, fsAfterRead temp_file with
    | some c1, some c2 =>
        if c1 = c2 then (true, rd.2, removeFile fsAfterRead temp_file)
        else (false, rd.2, removeFile fsAfterRead temp_file)
    | some _, none => (false, rd.2, fsAfterRead)
    | none, _ =>
        (false, rd.2,
          if (fsAfterRead temp_file).isSome then removeFile fsAfterRead temp_file
          else fsAfterRead)

end ESP8266Flasher

/-- ESP32 flasher: `self.flash_size = "4MB"`, `self.flash_mode = "dio"`,
`self.flash_freq = "40m"`; no retry logic. -/
structure ESP32Flasher where
  port : String
  baud : Nat

namespace ESP32Flasher

def flash_size (_ : ESP32Flasher) : String := "4MB"

def flash_mode (_ : ESP32Flasher) : String := "dio"

def flash_freq (_ : ESP32Flasher) : String := "40m"

/-- Python `run_command` of `ESP32Flasher`: a single spawn, no `check`, no retry;
every caught exception yields `False`:

```
try:
    result = subprocess.run(cmd, shell=True, capture_output=True, text=True)
    if result.returncode != 0:
        return False
    return True
except Exception:
    return False
``` -/
def run_command (fl : ESP32Flasher) (cmd : String) (out : SpawnOutcome) :
    Bool × List String :=
  match out with
  | .raised => (false, [cmd])
  | .completed r => if r.returncode ≠ 0 then (false, [cmd]) else (true, [cmd])

/-- Python `f"esptool.py --port {self.port} --baud {self.baud}"`. -/
def base (fl : ESP32Flasher) : String :=
  "esptool.py --port " ++ fl.port ++ " --baud " ++ toString fl.baud

/-- Python `get_chip_info`: `... chip_id` (underscore dialect on ESP32). -/
def get_chip_info (fl : ESP32Flasher) (out : SpawnOutcome) : Bool × List String :=
  fl.run_command (fl.base ++ " chip_id") out

/-- The command line of `read_flash`. -/
def read_flash_cmd (fl : ESP32Flasher) (output_file : String) (start size : Nat) : String :=
  fl.base ++ " read_flash " ++ hex8 start ++ " " ++ hex8 size ++ " " ++ output_file

/-- Python `read_flash(output_file, start, size)`. -/
def read_flash (fl : ESP32Flasher) (output_file : String) (start size : Nat)
    (out : SpawnOutcome) : Bool × List String :=
  fl.run_command (fl.read_flash_cmd output_file start size) out

/-- The command line of `write_flash`. -/
def write_flash_cmd (fl : ESP32Flasher) (firmware_file : String) (address : Nat) : String :=
  fl.base ++ " write_flash --flash_mode " ++ fl.flash_mode
    ++ " --flash_freq " ++ fl.flash_freq
    ++ " --flash_size " ++ fl.flash_size
    ++ " " ++ hex8 address ++ " " ++ firmware_file

/-- Python `write_flash(firmware_file, address)`: checks only `os.path.exists`
(there is no size-versus-capacity check in the ESP32 variant), then spawns. -/
def write_flash (fl : ESP32Flasher) (fs : FS) (firmware_file : String) (address : Nat)
    (out : SpawnOutcome) : Bool × List String :=
  match fs firmware_file with
  | none => (false, [])
  | some _ => fl.run_command (fl.write_flash_cmd firmware_file address) out

/-- The command line of `write_complete_firmware` (literal `0x1000`, `0x8000`,
`0x10000` address spellings, as in the f-string). -/
def write_complete_cmd (fl : ESP32Flasher) (bootloader partition_table app : String) : String :=
  fl.base ++ " write_flash --flash_mode " ++ fl.flash_mode
    ++ " --flash_freq " ++ fl.flash_freq
    ++ " --flash_size " ++ fl.flash_size
    ++ " 0x1000 " ++ bootloader ++ " 0x8000 " ++ partition_table ++ " 0x10000 " ++ app

/-- Python `write_complete_firmware(bootloader, partition_table, app)`: all three
files must exist, then a single combined command is spawned. -/
def write_complete_firmware (fl : ESP32Flasher) (fs : FS)
    (bootloader partition_table app : String) (out : SpawnOutcome) : Bool × List String :=
  if (fs bootloader).isSome && (fs partition_table).isSome && (fs app).isSome then
    fl.run_command (fl.write_complete_cmd bootloader partition_table app) out
  else (false, [])

def erase_flash (fl : ESP32Flasher) (out : SpawnOutcome) : Bool × List String :=
  fl.run_command (fl.base ++ " erase_flash") out

/-- Python `backup_firmware(backup_file)`: `read_flash` with defaults
(`start=0x00000, size=0x400000`). -/
def backup_firmware (fl : ESP32Flasher) (backup_file : String) (out : SpawnOutcome) :
    Bool × List String :=
  fl.read_flash backup_file 0x00000 0x400000 out

/-- The fixed partition table of `read_partition`. -/
def partitions (name : String) : Option (Nat × Nat) :=
  if name = "bootloader" then some (0x1000, 0x6000)
  else if name = "partition_table" then some (0x8000, 0x1000)
  else if name = "app" then some (0x10000, 0x100000)
  else if name = "nvs" then some (0x9000, 0x6000)
  else if name = "otadata" then some (0xd000, 0x2000)
  else if name = "spiffs" then some (0x180000, 0x200000)
  else none

/-- Python `read_partition(partition_name, output_file)`: unknown names fail without
spawning; known names read at the fixed (start, size) pair. -/
def read_partition (fl : ESP32Flasher) (partition_name output_file : String)
    (out : SpawnOutcome) : Bool × List String :=
  match partitions partition_name with
  | none => (false, [])
  | some se => fl.read_flash output_file se.1 se.2 out

end ESP32Flasher

/-! ## CLI front-ends

Each `main` is modelled after argument parsing: `argparse` has already
succeeded (so `--port` and `--action` are present and the hex fields have
been converted), and the model maps the parsed arguments plus the oracles to
the process exit status together with the list of spawned command lines.
`sys.exit(1)` is exit status 1; falling off the end of `main` is exit
status 0.  `KeyboardInterrupt` (asynchronous) is not modelled.  The
`os.path.getsize(...)` call that ESP01/ESP8266 `main` performs on the output
file after a successful read/backup is modelled through `fsAfter`, the
filesystem after the dispatched operation: a missing file there raises
`OSError`, which the surrounding handler turns into exit status 1.

`execs n` is the execution oracle of the `n`-th `run_command`-performing
method call made by `main` (index 0 is always `check_esptool` on
ESP01/ESP8266). -/

/-- The `--action` choices of `esp01_flash.py`. -/
inductive Esp01Action where
  | info | read | write | erase | backup | at_firmware | verify | mac | flash_id
deriving DecidableEq

/-- Parsed arguments of `esp01_flash.py` (`address`/`size` already converted
from hex). -/
structure Esp01Args where
  port : String
  baud : Nat
  action : Esp01Action
  file : Option String
  address : Nat
  size : Nat
  verifyFlag : Bool
  noProgress : Bool
  eraseAll : Bool
  noVerify : Bool

/-- Python `main()` of `esp01_flash.py`. -/
def esp01_main (args : Esp01Args) (fs0 : FS) (fsAfter : FS) (execs : Nat → ExecOracle) :
    Nat × List String :=
  let fl : ESP01Flasher := ⟨args.port, args.baud⟩
  let tool := fl.check_esptool (execs 0)
  if tool.1 = false then (1, tool.2)
  else
    let verify := args.verifyFlag && !args.noVerify
    let progress := !args.noProgress
    match args.action with
    | .info =>
        let a := fl.get_chip_info (execs 1)
        let b := fl.get_flash_id (execs 2)
        let c := fl.get_mac_address (execs 3)
        (0, tool.2 ++ a.2 ++ b.2 ++ c.2)
    | .read =>
        match args.file with
        | none => (1, tool.2)
        | some f =>
            let r := fl.read_flash f args.address args.size progress (execs 1)
            if r.1 then
              match fsAfter f with
              | some _ => (0, tool.2 ++ r.2)
              | none => (1, tool.2 ++ r.2)
            else (1, tool.2 ++ r.2)
    | .write =>
        match args.file with
        | none => (1, tool.2)
        | some f =>
            let r := fl.write_flash fs0 f args.address verify progress args.eraseAll (execs 1)
            if r.1 then (0, tool.2 ++ r.2) else (1, tool.2 ++ r.2)
    | .erase =>
        let r := fl.erase_flash (execs 1)
        if r.1 then (0, tool.2 ++ r.2) else (1, tool.2 ++ r.2)
    | .backup =>
        let bfile := args.file.getD "esp01_backup.bin"
        let r := fl.backup_firmware bfile (execs 1)
        if r.1 then
          match fsAfter bfile with
          | some _ => (0, tool.2 ++ r.2)
          | none => (1, tool.2 ++ r.2)
        else (1, tool.2 ++ r.2)
    | .at_firmware =>
        match args.file with
        | none => (1, tool.2)
        | some f =>
            let r := fl.write_at_firmware fs0 f verify (execs 1)
            if r.1 then (0, tool.2 ++ r.2) else (1, tool.2 ++ r.2)
    | .verify =>
        match args.file with
        | none => (1, tool.2)
        | some f =>
            let r := fl.verify_flash f args.address args.size fsAfter (execs 1)
            if r.1 then (0, tool.2 ++ r.2.1) else (1, tool.2 ++ r.2.1)
    | .mac =>
        let r := fl.get_mac_address (execs 1)
        (0, tool.2 ++ r.2)
    | .flash_id =>
        let r := fl.get_flash_id (execs 1)
        (0, tool.2 ++ r.2)

/-- The `--action` choices of `esp8266_flash.py`. -/
inductive Esp8266Action where
  | info | read | write | erase | backup | verify | mac | flash_id | detect_size
  | write_multiple
deriving DecidableEq

/-- Parsed arguments of `esp8266_flash.py`.  `size` is `none` when `--size`
was not given; the three `*Addr` fields carry the parsed defaults
(`0x00000`, `0x10000`, `0x200000`). -/
structure Esp8266Args where
  port : String
  baud : Nat
  flashSize : String
  action : Esp8266Action
  file : Option String
  address : Nat
  size : Option Nat
  verifyFlag : Bool
  noProgress : Bool
  eraseAll : Bool
  noVerify : Bool
  bootloader : Option String
  app : Option String
  spiffs : Option String
  bootloaderAddr : Nat
  appAddr : Nat
  spiffsAddr : Nat

/-- The `files_dict` built by the `write_multiple` branch, in insertion order
(bootloader, app, spiffs). -/
def esp8266_files_dict (args : Esp8266Args) : List (Nat × String) :=
  (match args.bootloader with | some b => [(args.bootloaderAddr, b)] | none => [])
    ++ (match args.app with | some a => [(args.appAddr, a)] | none => [])
    ++ (match args.spiffs with | some s => [(args.spiffsAddr, s)] | none => [])

/-- Python `main()` of `esp8266_flash.py`. -/
def esp8266_main (args : Esp8266Args) (fs0 : FS) (fsAfter : FS) (execs : Nat → ExecOracle) :
    Nat × List String :=
  let fl : ESP8266Flasher := ⟨args.port, args.baud, args.flashSize⟩
  let tool := fl.check_esptool (execs 0)
  if tool.1 = false then (1, tool.2)
  else
    let verify := args.verifyFlag && !args.noVerify
    let progress := !args.noProgress
    match args.action with
    | .info =>
        let a := fl.get_chip_info (execs 1)
        let b := fl.get_flash_id (execs 2)
        let c := fl.get_mac_address (execs 3)
        (0, tool.2 ++ a.2 ++ b.2 ++ c.2)
    | .read =>
        match args.file with
        | none => (1, tool.2)
        | some f =>
            let r := fl.read_flash f args.address args.size progress (execs 1)
            if r.1 then
              match fsAfter f with
              | some _ => (0, tool.2 ++ r.2)
              | none => (1, tool.2 ++ r.2)
            else (1, tool.2 ++ r.2)
    | .write =>
        match args.file with
        | none => (1, tool.2)
        | some f =>
            let r := fl.write_flash fs0 f args.address verify progress args.eraseAll (execs 1)
            if r.1 then (0, tool.2 ++ r.2) else (1, tool.2 ++ r.2)
    | .write_multiple =>
        let files := esp8266_files_dict args
        if files = [] then (1, tool.2)
        else
          let r := fl.write_multiple_files fs0 files progress (execs 1)
          if r.1 then (0, tool.2 ++ r.2) else (1, tool.2 ++ r.2)
    | .erase =>
        let r := fl.erase_flash (execs 1)
        if r.1 then (0, tool.2 ++ r.2) else (1, tool.2 ++ r.2)
    | .backup =>
        let bfile := args.file.getD "esp8266_backup.bin"
        let r := fl.backup_firmware bfile (execs 1)
        if r.1 then
          match fsAfter bfile with
          | some _ => (0, tool.2 ++ r.2)
          | none => (1, tool.2 ++ r.2)
        else (1, tool.2 ++ r.2)
    | .verify =>
        match args.file with
        | none => (1, tool.2)
        | some f =>
            let r := fl.verify_flash f args.address args.size fsAfter (execs 1)
            if r.1 then (0, tool.2 ++ r.2.1) else (1, tool.2 ++ r.2.1)
    | .mac =>
        let r := fl.get_mac_address (execs 1)
        (0, tool.2 ++ r.2)
    | .flash_id =>
        let r := fl.get_flash_id (execs 1)
        (0, tool.2 ++ r.2)
    | .detect_size =>
        let r := fl.detect_flash_size (execs 1)
        (0, tool.2 ++ r.2)

/-- The `--action` choices of `esp32_flash.py`. -/
inductive Esp32Action where
  | info | read | write | write_complete | erase | backup | read_partition
deriving DecidableEq

/-- Parsed arguments of `esp32_flash.py`. -/
structure Esp32Args where
  port : String
  baud : Nat
  action : Esp32Action
  file : Option String
  bootloader : Option String
  partition_table : Option String
  app : Option String
  address : Nat
  size : Nat
  partition : Option String

/-- Python `main()` of `esp32_flash.py`: there is no esptool availability check and
no inspection of the boolean results of the dispatched operation — `main`
only exits with status 1 on missing required flags, and otherwise falls off
the end with status 0.  `outs n` is the spawn outcome of the `n`-th
`run_command` call. -/
def esp32_main (args : Esp32Args) (fs0 : FS) (outs : Nat → SpawnOutcome) :
    Nat × List String :=
  let fl : ESP32Flasher := ⟨args.port, args.baud⟩
  match args.action with
  | .info =>
      let r := fl.get_chip_info (outs 0)
      (0, r.2)
  | .read =>
      match args.file with
      | none => (1, [])
      | some f =>
          let r := fl.read_flash f args.address args.size (outs 0)
          (0, r.2)
  | .write =>
      match args.file with
      | none => (1, [])
      | some f =>
          let r := fl.write_flash fs0 f args.address (outs 0)
          (0, r.2)
  | .write_complete =>
      match args.bootloader, args.partition_table, args.app with
      | some b, some pt, some a =>
          let r := fl.write_complete_firmware fs0 b pt a (outs 0)
          (0, r.2)
      | _, _, _ => (1, [])
  | .erase =>
      let r := fl.erase_flash (outs 0)
      (0, r.2)
  | .backup =>
      let bfile := args.file.getD "esp32_backup.bin"
      let r := fl.backup_firmware bfile (outs 0)
      (0, r.2)
  | .read_partition =>
      match args.partition, args.file with
      | some p, some f =>
          let r := fl.read_partition p f (outs 0)
          (0, r.2)
      | _, _ => (1, [])

/-! ## Helper lemmas -/

/-- One-step unfolding of `runCmdLoop` with a plain (non-dependent) `if`. -/
theorem runCmdLoop_eq (m : Nat) (cmd : String) (check : Bool) (exec : ExecOracle)
    (r : Nat) :
    runCmdLoop m cmd check exec r =
      match exec r with
      | .raised => (false, [cmd])
      | .completed p =>
          if p.returncode = 0 then (true, [cmd])
          else if check then (false, [cmd])
          else if r < m ∧ transientError p.stderr = true then
            ((runCmdLoop m cmd check exec (r + 1)).1,
              cmd :: (runCmdLoop m cmd check exec (r + 1)).2)
          else (false, [cmd]) := by
  unfold runCmdLoop
  rw [runCmdGo]
  cases hex : exec r with
  | raised => rfl
  | completed p =>
      by_cases h0 : p.returncode = 0
      · simp [h0]
      · by_cases hc : check = true
        · simp [h0, hc]
        · by_cases hlt : r < m
          · cases htr : transientError p.stderr with
            | true =>
                obtain ⟨k, hk⟩ : ∃ k, m - r = k + 1 := ⟨m - r - 1, by omega⟩
                have hk2 : m - (r + 1) = k := by omega
                rw [hk]
                simp [h0, hc, hlt, htr, runCmdLoop, hk2]
            | false =>
                rcases hfuel : m - r with _ | k <;>
                  simp [h0, hc, hlt, htr]
          · have hk : m - r = 0 := by omega
            rw [hk]
            cases htr : transientError p.stderr <;> simp [h0, hc, hlt, htr]

/-- Step lemma: a raised spawn returns `False` after one spawn. -/
theorem runCmdLoop_raised (m : Nat) (cmd : String) (check : Bool) (exec : ExecOracle)
    (r : Nat) (hex : exec r = .raised) :
    runCmdLoop m cmd check exec r = (false, [cmd]) := by
  rw [runCmdLoop_eq, hex]

/-- Step lemma: a zero return code returns `True` after one spawn. -/
theorem runCmdLoop_success (m : Nat) (cmd : String) (check : Bool) (exec : ExecOracle)
    (r : Nat) (p : ProcResult) (hex : exec r = .completed p) (h0 : p.returncode = 0) :
    runCmdLoop m cmd check exec r = (true, [cmd]) := by
  rw [runCmdLoop_eq, hex]
  simp [h0]

/-- Step lemma: with `check=True` a nonzero return code raises
`CalledProcessError`, caught into `False` after one spawn — no retry. -/
theorem runCmdLoop_check_raise (m : Nat) (cmd : String) (exec : ExecOracle)
    (r : Nat) (p : ProcResult) (hex : exec r = .completed p) (h0 : ¬p.returncode = 0) :
    runCmdLoop m cmd true exec r = (false, [cmd]) := by
  rw [runCmdLoop_eq, hex]
  simp [h0]

/-- Step lemma: with `check=False`, a nonzero return code whose error text is
transient retries while budget remains. -/
theorem runCmdLoop_retry (m : Nat) (cmd : String) (exec : ExecOracle)
    (r : Nat) (p : ProcResult) (hex : exec r = .completed p) (h0 : ¬p.returncode = 0)
    (hcond : r < m ∧ transientError p.stderr = true) :
    runCmdLoop m cmd false exec r =
      ((runCmdLoop m cmd false exec (r + 1)).1,
        cmd :: (runCmdLoop m cmd false exec (r + 1)).2) := by
  rw [runCmdLoop_eq, hex]
  simp [h0, hcond]

/-- Step lemma: with `check=False`, a nonzero return code without transient
error text (or with budget exhausted) returns `False` after one spawn. -/
theorem runCmdLoop_no_retry (m : Nat) (cmd : String) (exec : ExecOracle)
    (r : Nat) (p : ProcResult) (hex : exec r = .completed p) (h0 : ¬p.returncode = 0)
    (hcond : ¬(r < m ∧ transientError p.stderr = true)) :
    runCmdLoop m cmd false exec r = (false, [cmd]) := by
  rw [runCmdLoop_eq, hex]
  simp [h0, hcond]

/-- Every call of the retrying executor spawns at least one process. -/
theorem runCmdLoop_length_pos (m : Nat) (cmd : String) (check : Bool) (exec : ExecOracle)
    (r : Nat) : 1 ≤ (runCmdLoop m cmd check exec r).2.length := by
  cases hex : exec r with
  | raised => rw [runCmdLoop_raised m cmd check exec r hex]; simp
  | completed p =>
      by_cases h0 : p.returncode = 0
      · rw [runCmdLoop_success m cmd check exec r p hex h0]; simp
      · cases check with
        | true => rw [runCmdLoop_check_raise m cmd exec r p hex h0]; simp
        | false =>
            by_cases hcond : r < m ∧ transientError p.stderr = true
            · rw [runCmdLoop_retry m cmd exec r p hex h0 hcond]; simp
            · rw [runCmdLoop_no_retry m cmd exec r p hex h0 hcond]; simp

/-- With `check=True` a failing run raises `CalledProcessError`, so the
executor never retries: the spawn list is always the single command. -/
theorem runCmdLoop_check_true_spawns (m : Nat) (cmd : String) (exec : ExecOracle)
    (r : Nat) : (runCmdLoop m cmd true exec r).2 = [cmd] := by
  cases hex : exec r with
  | raised => rw [runCmdLoop_raised m cmd true exec r hex]
  | completed p =>
      by_cases h0 : p.returncode = 0
      · rw [runCmdLoop_success m cmd true exec r p hex h0]
      · rw [runCmdLoop_check_raise m cmd exec r p hex h0]

/-- Every spawned command line of the retrying executor is the given command. -/
theorem runCmdLoop_spawns_all_cmd (m : Nat) (cmd : String) (check : Bool)
    (exec : ExecOracle) (r : Nat) :
    ∀ c ∈ (runCmdLoop m cmd check exec r).2, c = cmd := by
  have key : ∀ k r, m - r ≤ k → ∀ c ∈ (runCmdLoop m cmd check exec r).2, c = cmd := by
    intro k
    induction k with
    | zero =>
        intro r hr
        cases hex : exec r with
        | raised => rw [runCmdLoop_raised m cmd check exec r hex]; simp
        | completed p =>
            by_cases h0 : p.returncode = 0
            · rw [runCmdLoop_success m cmd check exec r p hex h0]; simp
            · cases check with
              | true => rw [runCmdLoop_check_raise m cmd exec r p hex h0]; simp
              | false =>
                  have hcond : ¬(r < m ∧ transientError p.stderr = true) :=
                    fun hcond => absurd hcond.1 (by omega)
                  rw [runCmdLoop_no_retry m cmd exec r p hex h0 hcond]; simp
    | succ k ih =>
        intro r hr
        cases hex : exec r with
        | raised => rw [runCmdLoop_raised m cmd check exec r hex]; simp
        | completed p =>
            by_cases h0 : p.returncode = 0
            · rw [runCmdLoop_success m cmd check exec r p hex h0]; simp
            · cases check with
              | true => rw [runCmdLoop_check_raise m cmd exec r p hex h0]; simp
              | false =>
                  by_cases hcond : r < m ∧ transientError p.stderr = true
                  · rw [runCmdLoop_retry m cmd exec r p hex h0 hcond]
                    intro c hcmem
                    rcases List.mem_cons.mp hcmem with hcm | hcm
                    · exact hcm
                    · exact ih (r + 1) (by omega) c hcm
                  · rw [runCmdLoop_no_retry m cmd exec r p hex h0 hcond]; simp
  exact key (m - r) r le_rfl

/-- The retry counter bounds the number of spawned attempts: at most
`(maxRetries - retries) + 1` processes are spawned. -/
theorem runCmdLoop_length_le (m : Nat) (cmd : String) (check : Bool)
    (exec : ExecOracle) (r : Nat) :
    (runCmdLoop m cmd check exec r).2.length ≤ (m - r) + 1 := by
  have key : ∀ k r, m - r ≤ k →
      (runCmdLoop m cmd check exec r).2.length ≤ (m - r) + 1 := by
    intro k
    induction k with
    | zero =>
        intro r hr
        cases hex : exec r with
        | raised => rw [runCmdLoop_raised m cmd check exec r hex]; simp
        | completed p =>
            by_cases h0 : p.returncode = 0
            · rw [runCmdLoop_success m cmd check exec r p hex h0]; simp
            · cases check with
              | true => rw [runCmdLoop_check_raise m cmd exec r p hex h0]; simp
              | false =>
                  have hcond : ¬(r < m ∧ transientError p.stderr = true) :=
                    fun hcond => absurd hcond.1 (by omega)
                  rw [runCmdLoop_no_retry m cmd exec r p hex h0 hcond]; simp
    | succ k ih =>
        intro r hr
        cases hex : exec r with
        | raised => rw [runCmdLoop_raised m cmd check exec r hex]; simp
        | completed p =>
            by_cases h0 : p.returncode = 0
            · rw [runCmdLoop_success m cmd check exec r p hex h0]; simp
            · cases check with
              | true => rw [runCmdLoop_check_raise m cmd exec r p hex h0]; simp
              | false =>
                  by_cases hcond : r < m ∧ transientError p.stderr = true
                  · rw [runCmdLoop_retry m cmd exec r p hex h0 hcond]
                    have hrec := ih (r + 1) (by omega)
                    have hlt : r < m := hcond.1
                    simp only [List.length_cons]
                    omega
                  · rw [runCmdLoop_no_retry m cmd exec r p hex h0 hcond]; simp
  exact key (m - r) r le_rfl

/-- A retry (a second attempt on the same invocation) happens exactly when the
run completed without raising (`check=False`) with a nonzero return code,
there is retry budget left, and the error text matches the transient
signature. -/
theorem runCmdLoop_retry_iff (m : Nat) (cmd : String) (check : Bool)
    (exec : ExecOracle) (r : Nat) :
    1 < (runCmdLoop m cmd check exec r).2.length ↔
      (check = false ∧ ∃ p, exec r = .completed p ∧ p.returncode ≠ 0 ∧
        r < m ∧ transientError p.stderr = true) := by
  cases hex : exec r with
  | raised =>
      rw [runCmdLoop_raised m cmd check exec r hex]
      simp [hex]
  | completed p =>
      by_cases h0 : p.returncode = 0
      · rw [runCmdLoop_success m cmd check exec r p hex h0]
        simp [hex, h0]
      · cases check with
        | true =>
            rw [runCmdLoop_check_raise m cmd exec r p hex h0]
            simp
        | false =>
            by_cases hcond : r < m ∧ transientError p.stderr = true
            · rw [runCmdLoop_retry m cmd exec r p hex h0 hcond]
              constructor
              · intro _
                exact ⟨rfl, p, rfl, h0, hcond.1, hcond.2⟩
              · intro _
                have hpos := runCmdLoop_length_pos m cmd false exec (r + 1)
                simp only [List.length_cons]
                omega
            · rw [runCmdLoop_no_retry m cmd exec r p hex h0 hcond]
              constructor
              · intro hlen
                simp at hlen
              · rintro ⟨-, q, hq, -, hlt, htr⟩
                cases hq
                exact absurd ⟨hlt, htr⟩ hcond

/-- Python `os.remove` removes the removed path. -/
theorem removeFile_self (fs : FS) (p : String) : removeFile fs p p = none := by
  simp [removeFile]

/-- Concatenation witnesses a contiguous occurrence. -/
theorem subSeg_of_append {α : Type} (x y s : List α) : SubSeg s (x ++ s ++ y) :=
  ⟨x, y, rfl⟩

/-- Contiguous occurrence is transitive. -/
theorem subSeg_trans {α : Type} {a b c : List α} (h1 : SubSeg a b) (h2 : SubSeg b c) :
    SubSeg a c := by
  obtain ⟨x, y, hb⟩ := h1
  obtain ⟨u, v, hc⟩ := h2
  exact ⟨u ++ x, y ++ v, by simp [hc, hb, List.append_assoc]⟩

/-- The accumulated string is a contiguous piece of the final fold result. -/
theorem subSeg_foldl_init (l : List (Nat × String)) :
    ∀ init : String,
      SubSeg init.data
        ((l.foldl (fun acc af => acc ++ " " ++ hex8 af.1 ++ " " ++ af.2) init)).data := by
  induction l with
  | nil => intro init; exact ⟨[], [], by simp⟩
  | cons a t ih =>
      intro init
      have h1 : SubSeg init.data (init ++ " " ++ hex8 a.1 ++ " " ++ a.2).data :=
        ⟨[], (" " ++ hex8 a.1 ++ " " ++ a.2).data, by simp [List.append_assoc]⟩
      exact subSeg_trans h1 (by simpa using ih (init ++ " " ++ hex8 a.1 ++ " " ++ a.2))

/-- Every ` {address:08x} {file}` segment of the `write_multiple_files` fold
occurs contiguously in the folded command. -/
theorem subSeg_foldl_mem (l : List (Nat × String)) :
    ∀ (init : String) (af : Nat × String), af ∈ l →
      SubSeg (" " ++ hex8 af.1 ++ " " ++ af.2).data
        ((l.foldl (fun acc bf => acc ++ " " ++ hex8 bf.1 ++ " " ++ bf.2) init)).data := by
  induction l with
  | nil => intro init af haf; simp at haf
  | cons a t ih =>
      intro init af haf
      rcases List.mem_cons.mp haf with haf | haf
      · subst haf
        have h1 : SubSeg (" " ++ hex8 af.1 ++ " " ++ af.2).data
            (init ++ " " ++ hex8 af.1 ++ " " ++ af.2).data := by
          refine ⟨init.data, [], ?_⟩
          simp [List.append_assoc]
        exact subSeg_trans h1
          (by simpa using subSeg_foldl_init t (init ++ " " ++ hex8 af.1 ++ " " ++ af.2))
      · simpa using ih (init ++ " " ++ hex8 a.1 ++ " " ++ a.2) af haf


/-! ## Claim theorems -/

/-- Concrete filesystem with one oversized firmware file (4 MB + 1 byte). -/
def bigFS : FS := fun p => if p = "big.bin" then some (List.replicate 4194305 0) else none

/-- Claim C1, counterexample: the claim fails on the ESP32 variant.  The file
`big.bin` exists with size 4 MB + 1 byte, exceeding the declared 4 MB
capacity, yet `ESP32Flasher.write_flash` spawns the external tool (exactly
the write command) and reports success. -/
theorem c1_counterexample :
    ((bigFS "big.bin").getD []).length > 0x400000 ∧
    ESP32Flasher.write_flash ⟨"COM3", 115200⟩ bigFS "big.bin" 0
        (.completed ⟨0, "", ""⟩) =
      (true, [ESP32Flasher.write_flash_cmd ⟨"COM3", 115200⟩ "big.bin" 0]) := by
  constructor
  · norm_num [bigFS]
  · rfl

/-- Claim C1 (amended): for ESP01 and ESP8266, a firmware file whose size
exceeds the declared flash capacity (0x100000 for ESP01, the configured
flash-size mapping for ESP8266) is rejected before any external process is
spawned; the ESP32 variant performs no size check and spawns its write
command for every existing firmware file regardless of size. -/
theorem c1_write_flash_capacity (fl1 : ESP01Flasher) (fl2 : ESP8266Flasher)
    (fl3 : ESP32Flasher) (fs : FS) (f : String) (c : List Nat) (addr : Nat)
    (v pr er : Bool) (exec : ExecOracle) (out : SpawnOutcome)
    (h : fs f = some c) :
    (c.length > 0x100000 → fl1.write_flash fs f addr v pr er exec = (false, [])) ∧
    (c.length > fl2.maxSizeOf → fl2.write_flash fs f addr v pr er exec = (false, [])) ∧
    (fl3.write_flash fs f addr out).2 = [fl3.write_flash_cmd f addr] := by
  refine ⟨?_, ?_, ?_⟩
  · intro hlen
    unfold ESP01Flasher.write_flash
    rw [h]
    simp [hlen]
  · intro hlen
    unfold ESP8266Flasher.write_flash
    rw [h]
    simp [hlen]
  · cases out with
    | raised => simp [ESP32Flasher.write_flash, ESP32Flasher.run_command, h]
    | completed p =>
        by_cases hp : p.returncode = 0 <;>
          simp [ESP32Flasher.write_flash, ESP32Flasher.run_command, h, hp]

/-- Witness for C1 at concrete inputs: the oversized file is rejected with no
spawn by ESP01 and ESP8266 (4MB configuration), while ESP32 spawns its write
command. -/
theorem c1_write_flash_capacity_witness :
    ESP01Flasher.write_flash ⟨"COM3", 115200⟩ bigFS "big.bin" 0 false true false
        (fun _ => .completed ⟨0, "", ""⟩) = (false, []) ∧
    ESP8266Flasher.write_flash ⟨"COM3", 115200, "4MB"⟩ bigFS "big.bin" 0 false true false
        (fun _ => .completed ⟨0, "", ""⟩) = (false, []) ∧
    (ESP32Flasher.write_flash ⟨"COM3", 115200⟩ bigFS "big.bin" 0
        (.completed ⟨0, "", ""⟩)).2 =
      [ESP32Flasher.write_flash_cmd ⟨"COM3", 115200⟩ "big.bin" 0] := by
  have h := c1_write_flash_capacity ⟨"COM3", 115200⟩ ⟨"COM3", 115200, "4MB"⟩
    ⟨"COM3", 115200⟩ bigFS "big.bin" (List.replicate 4194305 0) 0 false true false
    (fun _ => .completed ⟨0, "", ""⟩) (.completed ⟨0, "", ""⟩) rfl
  exact ⟨h.1 (by norm_num), h.2.1 (by simp only [List.length_replicate, gt_iff_lt]; decide),
    h.2.2⟩

/-- Filesystem where only a stale temporary verification file exists. -/
def tempLeftFS : FS := fun p => if p = "temp_verification.bin" then some [0] else none

/-- Execution oracle whose every attempt completes with return code 1 and
empty error text. -/
def failExec : ExecOracle := fun _ => .completed ⟨1, "", ""⟩

/-- Claim C2, counterexample: when the read-back step itself fails,
`verify_flash` returns failure without deleting `temp_verification.bin` —
the temporary file is still present after the call. -/
theorem c2_counterexample :
    (ESP01Flasher.verify_flash ⟨"COM3", 115200⟩ "fw.bin" 0 0x100000 tempLeftFS
        failExec).1 = false ∧
    (ESP01Flasher.verify_flash ⟨"COM3", 115200⟩ "fw.bin" 0 0x100000 tempLeftFS
        failExec).2.2 "temp_verification.bin" = some [0] := by
  exact ⟨rfl, rfl⟩

/-- Claim C2 (amended): whenever the read-back step succeeds, the temporary
verification file is absent after `verify_flash` returns — on the match,
mismatch and comparison-I/O-error paths alike, for both the ESP01 and the
ESP8266 variant; when the read-back step itself fails, `verify_flash`
returns the filesystem unchanged, so a temporary file left behind by the
failed read persists. -/
theorem c2_verify_flash_temp_cleanup (fl1 : ESP01Flasher) (fl2 : ESP8266Flasher)
    (fw : String) (a s : Nat) (so : Option Nat) (fsA fsB : FS) (e1 e2 : ExecOracle)
    (h1 : (fl1.read_flash "temp_verification.bin" a s false e1).1 = true)
    (h2 : (fl2.read_flash "temp_verification.bin" a (some (so.getD fl2.maxSizeOf))
        false e2).1 = true) :
    (fl1.verify_flash fw a s fsA e1).2.2 "temp_verification.bin" = none ∧
    (fl2.verify_flash fw a so fsB e2).2.2 "temp_verification.bin" = none := by
  constructor
  · simp only [ESP01Flasher.verify_flash, h1]
    rw [if_neg (by simp)]
    cases hfw : fsA fw with
    | none =>
        cases htm : fsA "temp_verification.bin" with
        | none => simp [htm]
        | some c2 => simp [htm, removeFile_self]
    | some c1 =>
        cases htm : fsA "temp_verification.bin" with
        | none => exact htm
        | some c2 =>
            by_cases hcc : c1 = c2 <;> simp [hcc, removeFile_self]
  · simp only [ESP8266Flasher.verify_flash, h2]
    rw [if_neg (by simp)]
    cases hfw : fsB fw with
    | none =>
        cases htm : fsB "temp_verification.bin" with
        | none => simp [htm]
        | some c2 => simp [htm, removeFile_self]
    | some c1 =>
        cases htm : fsB "temp_verification.bin" with
        | none => exact htm
        | some c2 =>
            by_cases hcc : c1 = c2 <;> simp [hcc, removeFile_self]

/-- Filesystem where source file and temporary file both exist (content `[7]`). -/
def matchFS : FS := fun p =>
  if p = "fw.bin" then some [7]
  else if p = "temp_verification.bin" then some [7]
  else none

/-- Execution oracle whose every attempt completes successfully. -/
def okExec : ExecOracle := fun _ => .completed ⟨0, "", ""⟩

/-- Witness for C2 at concrete inputs: after a successful read-back and a
matching comparison, the temporary file is gone on both variants. -/
theorem c2_verify_flash_temp_cleanup_witness :
    (ESP01Flasher.verify_flash ⟨"COM3", 115200⟩ "fw.bin" 0 0x100000 matchFS
        okExec).2.2 "temp_verification.bin" = none ∧
    (ESP8266Flasher.verify_flash ⟨"COM3", 115200, "4MB"⟩ "fw.bin" 0 none matchFS
        okExec).2.2 "temp_verification.bin" = none :=
  c2_verify_flash_temp_cleanup ⟨"COM3", 115200⟩ ⟨"COM3", 115200, "4MB"⟩
    "fw.bin" 0 0x100000 none matchFS matchFS okExec okExec rfl rfl

/-- Execution oracle that always completes with return code 1 and stderr
`"timeout"`. -/
def timeoutExec : ExecOracle := fun _ => .completed ⟨1, "", "timeout"⟩

/-- Claim C3, counterexample: with `check=True` (the default used by every
flashing operation), a failed execution whose captured error text contains
"timeout" and which has its full retry budget left is still not retried —
`subprocess.run` raises `CalledProcessError` first, so exactly one process
is spawned and failure is reported. -/
theorem c3_counterexample :
    transientError "timeout" = true ∧
    (0 : Nat) < ESP01Flasher.max_retries ⟨"COM3", 115200⟩ ∧
    ESP01Flasher.run_command ⟨"COM3", 115200⟩ "esptool.py erase-flash" true
        timeoutExec 0 = (false, ["esptool.py erase-flash"]) := by
  refine ⟨by decide, by decide, by decide⟩

/-- Claim C3 (amended): a retry (a second attempt of the same invocation)
happens if and only if the attempt completed without raising — which
requires `check=False` — with a nonzero return code, the retries already
performed are below `max_retries`, and the captured error text contains
"timeout" or "connection" case-insensitively.  In particular an execution
failing with `check=True`, or with error text lacking both substrings, or
with the budget exhausted, reports failure without retrying. -/
theorem c3_retry_characterization (fl1 : ESP01Flasher) (fl2 : ESP8266Flasher)
    (cmd : String) (check : Bool) (exec : ExecOracle) (r : Nat) :
    (1 < (fl1.run_command cmd check exec r).2.length ↔
      (check = false ∧ ∃ p, exec r = .completed p ∧ p.returncode ≠ 0 ∧
        r < fl1.max_retries ∧ transientError p.stderr = true)) ∧
    (1 < (fl2.run_command cmd check exec r).2.length ↔
      (check = false ∧ ∃ p, exec r = .completed p ∧ p.returncode ≠ 0 ∧
        r < fl2.max_retries ∧ transientError p.stderr = true)) :=
  ⟨runCmdLoop_retry_iff _ cmd check exec r, runCmdLoop_retry_iff _ cmd check exec r⟩

/-- Claim C10: `run_command` always terminates with a boolean result (it is a
total function here); the number of attempts is bounded by the remaining
retry budget plus one, and every caught exception outcome (spawn raising
`OSError`/`SubprocessError`, or `CalledProcessError` from a nonzero return
code under `check=True`) yields `False` rather than propagating; the ESP32
variant likewise maps a raised exception to `False`. -/
theorem c10_run_command_total (fl1 : ESP01Flasher) (fl2 : ESP8266Flasher)
    (fl3 : ESP32Flasher) (cmd : String) (check : Bool) (exec : ExecOracle)
    (r : Nat) :
    (fl1.run_command cmd check exec r).2.length ≤ (fl1.max_retries - r) + 1 ∧
    (fl2.run_command cmd check exec r).2.length ≤ (fl2.max_retries - r) + 1 ∧
    (exec r = .raised → fl1.run_command cmd check exec r = (false, [cmd])) ∧
    (∀ p, exec r = .completed p → p.returncode ≠ 0 →
        fl1.run_command cmd true exec r = (false, [cmd])) ∧
    fl3.run_command cmd .raised = (false, [cmd]) := by
  refine ⟨runCmdLoop_length_le _ _ _ _ _, runCmdLoop_length_le _ _ _ _ _, ?_, ?_, rfl⟩
  · intro hex
    exact runCmdLoop_raised _ _ _ _ _ hex
  · intro p hex h0
    exact runCmdLoop_check_raise _ _ _ _ p hex h0

/-- Execution oracle whose every attempt raises. -/
def raisedExec : ExecOracle := fun _ => .raised

/-- Witness for C10 at concrete inputs. -/
theorem c10_run_command_total_witness :
    ESP01Flasher.run_command ⟨"COM3", 115200⟩ "x" true raisedExec 0 = (false, ["x"]) ∧
    ESP01Flasher.run_command ⟨"COM3", 115200⟩ "x" true failExec 0 = (false, ["x"]) ∧
    ESP32Flasher.run_command ⟨"COM3", 115200⟩ "x" .raised = (false, ["x"]) := by
  have h := c10_run_command_total ⟨"COM3", 115200⟩ ⟨"COM3", 115200, "4MB"⟩
    ⟨"COM3", 115200⟩ "x" true raisedExec 0
  have h2 := c10_run_command_total ⟨"COM3", 115200⟩ ⟨"COM3", 115200, "4MB"⟩
    ⟨"COM3", 115200⟩ "x" true failExec 0
  exact ⟨h.2.2.1 rfl, h2.2.2.2.1 ⟨1, "", ""⟩ rfl (by decide), h.2.2.2.2⟩

/-- Claim C6: when the read-back step succeeds and both files are readable,
`verify_flash` returns success exactly when the byte contents of the source
file and the read-back file are equal (so any single differing byte yields
failure), for both the ESP01 and the ESP8266 variant. -/
theorem c6_verify_flash_comparison (fl1 : ESP01Flasher) (fl2 : ESP8266Flasher)
    (fw : String) (a s : Nat) (so : Option Nat) (fsA fsB : FS) (e1 e2 : ExecOracle)
    (c1 c2 d1 d2 : List Nat)
    (h1 : (fl1.read_flash "temp_verification.bin" a s false e1).1 = true)
    (h2 : (fl2.read_flash "temp_verification.bin" a (some (so.getD fl2.maxSizeOf))
        false e2).1 = true)
    (hfw1 : fsA fw = some c1) (htm1 : fsA "temp_verification.bin" = some c2)
    (hfw2 : fsB fw = some d1) (htm2 : fsB "temp_verification.bin" = some d2) :
    ((fl1.verify_flash fw a s fsA e1).1 = true ↔ c1 = c2) ∧
    ((fl2.verify_flash fw a so fsB e2).1 = true ↔ d1 = d2) := by
  constructor
  · simp only [ESP01Flasher.verify_flash, h1]
    rw [if_neg (by simp)]
    rw [hfw1, htm1]
    by_cases hcc : c1 = c2 <;> simp [hcc]
  · simp only [ESP8266Flasher.verify_flash, h2]
    rw [if_neg (by simp)]
    rw [hfw2, htm2]
    by_cases hcc : d1 = d2 <;> simp [hcc]

/-- Witness for C6 at concrete inputs (matching contents on both variants). -/
theorem c6_verify_flash_comparison_witness :
    ((ESP01Flasher.verify_flash ⟨"COM3", 115200⟩ "fw.bin" 0 0x100000 matchFS
        okExec).1 = true ↔ ([7] : List Nat) = [7]) ∧
    ((ESP8266Flasher.verify_flash ⟨"COM3", 115200, "4MB"⟩ "fw.bin" 0 none matchFS
        okExec).1 = true ↔ ([7] : List Nat) = [7]) :=
  c6_verify_flash_comparison ⟨"COM3", 115200⟩ ⟨"COM3", 115200, "4MB"⟩ "fw.bin"
    0 0x100000 none matchFS matchFS okExec okExec [7] [7] [7] [7]
    rfl rfl rfl rfl rfl rfl

/-- Claim C7: the ESP32 partition table holds exactly the six fixed entries;
`read_partition` rejects unknown names without spawning, and for a known
name issues exactly the read command at the (start, size) pair of the table. -/
theorem c7_read_partition (fl : ESP32Flasher) (name out_file : String)
    (out : SpawnOutcome) :
    ESP32Flasher.partitions "bootloader" = some (0x1000, 0x6000) ∧
    ESP32Flasher.partitions "partition_table" = some (0x8000, 0x1000) ∧
    ESP32Flasher.partitions "app" = some (0x10000, 0x100000) ∧
    ESP32Flasher.partitions "nvs" = some (0x9000, 0x6000) ∧
    ESP32Flasher.partitions "otadata" = some (0xd000, 0x2000) ∧
    ESP32Flasher.partitions "spiffs" = some (0x180000, 0x200000) ∧
    (ESP32Flasher.partitions name = none →
      fl.read_partition name out_file out = (false, [])) ∧
    (∀ start size, ESP32Flasher.partitions name = some (start, size) →
      fl.read_partition name out_file out = fl.read_flash out_file start size out ∧
      (fl.read_partition name out_file out).2 =
        [fl.read_flash_cmd out_file start size]) := by
  refine ⟨rfl, rfl, rfl, rfl, rfl, rfl, ?_, ?_⟩
  · intro hnone
    unfold ESP32Flasher.read_partition
    rw [hnone]
  · intro start size hsome
    unfold ESP32Flasher.read_partition
    rw [hsome]
    refine ⟨rfl, ?_⟩
    cases out with
    | raised => rfl
    | completed p =>
        by_cases hp : p.returncode = 0 <;>
          simp [ESP32Flasher.read_flash, ESP32Flasher.run_command, hp]

/-- Witness for C7 at concrete inputs: an unknown name fails with no spawn;
the `app` partition is read at (0x10000, 0x100000). -/
theorem c7_read_partition_witness :
    ESP32Flasher.read_partition ⟨"COM3", 115200⟩ "bogus" "o.bin"
        (.completed ⟨0, "", ""⟩) = (false, []) ∧
    (ESP32Flasher.read_partition ⟨"COM3", 115200⟩ "app" "o.bin"
        (.completed ⟨0, "", ""⟩)).2 =
      [ESP32Flasher.read_flash_cmd ⟨"COM3", 115200⟩ "o.bin" 0x10000 0x100000] := by
  have ha := c7_read_partition ⟨"COM3", 115200⟩ "bogus" "o.bin" (.completed ⟨0, "", ""⟩)
  have hb := c7_read_partition ⟨"COM3", 115200⟩ "app" "o.bin" (.completed ⟨0, "", ""⟩)
  exact ⟨ha.2.2.2.2.2.2.1 rfl, (hb.2.2.2.2.2.2.2 0x10000 0x100000 rfl).2⟩

/-- Claim C8: a multi-file write fails without spawning any process when some
listed file is missing; when all files exist, exactly one external command
is spawned and it contains every (address, file) pair — ESP8266
`write_multiple_files` over the address→path mapping, ESP32
`write_complete_firmware` at its fixed 0x1000/0x8000/0x10000 addresses. -/
theorem c8_multi_write (fl8 : ESP8266Flasher) (fl3 : ESP32Flasher) (fs : FS)
    (files : List (Nat × String)) (progress : Bool) (exec : ExecOracle)
    (boot pt app : String) (out : SpawnOutcome) :
    ((∃ af ∈ files, fs af.2 = none) →
      fl8.write_multiple_files fs files progress exec = (false, [])) ∧
    ((∀ af ∈ files, (fs af.2).isSome) →
      (fl8.write_multiple_files fs files progress exec).2 =
        [fl8.write_multiple_cmd files progress] ∧
      ∀ af ∈ files, StrContains (fl8.write_multiple_cmd files progress)
        (" " ++ hex8 af.1 ++ " " ++ af.2)) ∧
    ((fs boot = none ∨ fs pt = none ∨ fs app = none) →
      fl3.write_complete_firmware fs boot pt app out = (false, [])) ∧
    ((fs boot).isSome → (fs pt).isSome → (fs app).isSome →
      (fl3.write_complete_firmware fs boot pt app out).2 =
        [fl3.write_complete_cmd boot pt app] ∧
      StrContains (fl3.write_complete_cmd boot pt app) (" 0x1000 " ++ boot) ∧
      StrContains (fl3.write_complete_cmd boot pt app) (" 0x8000 " ++ pt) ∧
      StrContains (fl3.write_complete_cmd boot pt app) (" 0x10000 " ++ app)) := by
  refine ⟨?_, ?_, ?_, ?_⟩
  · rintro ⟨af, hmem, hnone⟩
    unfold ESP8266Flasher.write_multiple_files
    rw [if_neg]
    intro hall
    rw [List.all_eq_true] at hall
    have habs := hall af hmem
    rw [hnone] at habs
    simp at habs
  · intro hall
    unfold ESP8266Flasher.write_multiple_files
    rw [if_pos (by rw [List.all_eq_true]; intro af hmem; simpa using hall af hmem)]
    constructor
    · exact runCmdLoop_check_true_spawns _ _ _ _
    · intro af haf
      exact subSeg_foldl_mem files _ af haf
  · intro hmiss
    unfold ESP32Flasher.write_complete_firmware
    rw [if_neg]
    rcases hmiss with hm | hm | hm <;> simp [hm]
  · intro hb hp ha
    unfold ESP32Flasher.write_complete_firmware
    rw [if_pos (by simp [hb, hp, ha])]
    refine ⟨?_, ?_, ?_, ?_⟩
    · cases out with
      | raised => rfl
      | completed p =>
          by_cases hrc : p.returncode = 0 <;> simp [ESP32Flasher.run_command, hrc]
    · refine ⟨(fl3.base ++ " write_flash --flash_mode " ++ fl3.flash_mode
        ++ " --flash_freq " ++ fl3.flash_freq ++ " --flash_size " ++ fl3.flash_size).data,
        (" 0x8000 " ++ pt ++ " 0x10000 " ++ app).data, ?_⟩
      simp [ESP32Flasher.write_complete_cmd, List.append_assoc]
    · refine ⟨(fl3.base ++ " write_flash --flash_mode " ++ fl3.flash_mode
        ++ " --flash_freq " ++ fl3.flash_freq ++ " --flash_size " ++ fl3.flash_size
        ++ " 0x1000 " ++ boot).data,
        (" 0x10000 " ++ app).data, ?_⟩
      simp [ESP32Flasher.write_complete_cmd, List.append_assoc]
    · refine ⟨(fl3.base ++ " write_flash --flash_mode " ++ fl3.flash_mode
        ++ " --flash_freq " ++ fl3.flash_freq ++ " --flash_size " ++ fl3.flash_size
        ++ " 0x1000 " ++ boot ++ " 0x8000 " ++ pt).data, [], ?_⟩
      simp [ESP32Flasher.write_complete_cmd, List.append_assoc]

/-- Filesystem for the multi-file write witness. -/
def multiFS : FS := fun p =>
  if p = "b.bin" then some [1]
  else if p = "a.bin" then some [2]
  else if p = "s.bin" then some [3]
  else none

/-- Witness for C8 at concrete inputs. -/
theorem c8_multi_write_witness :
    ESP8266Flasher.write_multiple_files ⟨"COM3", 115200, "4MB"⟩ multiFS
        [(0, "b.bin"), (65536, "missing.bin")] true okExec = (false, []) ∧
    (ESP8266Flasher.write_multiple_files ⟨"COM3", 115200, "4MB"⟩ multiFS
        [(0, "b.bin"), (65536, "a.bin")] true okExec).2 =
      [ESP8266Flasher.write_multiple_cmd ⟨"COM3", 115200, "4MB"⟩
        [(0, "b.bin"), (65536, "a.bin")] true] ∧
    ESP32Flasher.write_complete_firmware ⟨"COM3", 115200⟩ multiFS "b.bin"
        "missing.bin" "a.bin" (.completed ⟨0, "", ""⟩) = (false, []) ∧
    (ESP32Flasher.write_complete_firmware ⟨"COM3", 115200⟩ multiFS "b.bin"
        "a.bin" "s.bin" (.completed ⟨0, "", ""⟩)).2 =
      [ESP32Flasher.write_complete_cmd ⟨"COM3", 115200⟩ "b.bin" "a.bin" "s.bin"] := by
  have h1 := c8_multi_write ⟨"COM3", 115200, "4MB"⟩ ⟨"COM3", 115200⟩ multiFS
    [(0, "b.bin"), (65536, "missing.bin")] true okExec "b.bin" "missing.bin" "a.bin"
    (.completed ⟨0, "", ""⟩)
  have h2 := c8_multi_write ⟨"COM3", 115200, "4MB"⟩ ⟨"COM3", 115200⟩ multiFS
    [(0, "b.bin"), (65536, "a.bin")] true okExec "b.bin" "a.bin" "s.bin"
    (.completed ⟨0, "", ""⟩)
  exact ⟨h1.1 ⟨(65536, "missing.bin"), by simp, rfl⟩, (h2.2.1 (by decide)).1,
    h1.2.2.1 (Or.inr (Or.inl rfl)), (h2.2.2.2 (by decide) (by decide) (by decide)).1⟩

/-- Write-action CLI arguments for the ESP01 flasher, with the two
verification flags variable. -/
def esp01WriteArgs (vf nv : Bool) : Esp01Args :=
  ⟨"COM3", 115200, .write, some "fw.bin", 0, 0x100000, vf, false, false, nv⟩

/-- Write-action CLI arguments for the ESP8266 flasher, with the two
verification flags variable. -/
def esp8266WriteArgs (vf nv : Bool) : Esp8266Args :=
  ⟨"COM3", 115200, "4MB", .write, some "fw.bin", 0, none, vf, false, false, nv,
    none, none, none, 0, 65536, 2097152⟩

/-- Filesystem with a one-byte firmware file. -/
def smallFS : FS := fun p => if p = "fw.bin" then some [1] else none

/-- Claim C9: for the write action, the `verify` value handed to
`write_flash` is `--verify present && --no-verify absent`; the issued write
command contains "--verify" exactly when that value is true, so
verification is off by default and `--no-verify` overrides `--verify`, even
though the own default parameter of the method is `verify=True`. -/
theorem c9_cli_verify_gating (vf nv : Bool) :
    ESP01Flasher.write_flash_verify_default = true ∧
    ESP8266Flasher.write_flash_verify_default = true ∧
    (esp01_main (esp01WriteArgs vf nv) smallFS smallFS (fun _ => okExec)).2 =
      ["python -m esptool version",
        ESP01Flasher.write_flash_cmd ⟨"COM3", 115200⟩ "fw.bin" 0 (vf && !nv)
          true false] ∧
    strContainsB (ESP01Flasher.write_flash_cmd ⟨"COM3", 115200⟩ "fw.bin" 0
        (vf && !nv) true false) "--verify" = (vf && !nv) ∧
    (esp8266_main (esp8266WriteArgs vf nv) smallFS smallFS (fun _ => okExec)).2 =
      ["python -m esptool version",
        ESP8266Flasher.write_flash_cmd ⟨"COM3", 115200, "4MB"⟩ "fw.bin" 0
          (vf && !nv) true false] ∧
    strContainsB (ESP8266Flasher.write_flash_cmd ⟨"COM3", 115200, "4MB"⟩ "fw.bin" 0
        (vf && !nv) true false) "--verify" = (vf && !nv) := by
  cases vf <;> cases nv <;>
    exact ⟨rfl, rfl, by decide, by decide, by decide, by decide⟩

/-- Python `True` when the ESP32 CLI invocation misses a flag that its action
requires (the only situations in which `main` of `esp32_flash.py` calls
`sys.exit(1)`). -/
def esp32_missing_flag (args : Esp32Args) : Bool :=
  match args.action with
  | .read => args.file.isNone
  | .write => args.file.isNone
  | .write_complete =>
      args.bootloader.isNone || args.partition_table.isNone || args.app.isNone
  | .read_partition => args.partition.isNone || args.file.isNone
  | _ => false

/-- The exit status the ESP01 CLI produces, characterised from the viewpoint of the claim: 1 when the availability check fails, when a required `--file` is
missing, or when the dispatched operation fails (for read/backup also when
the output file is absent afterwards); informational actions always exit 0. -/
def esp01_exit_spec (args : Esp01Args) (fs0 fsA : FS) (execs : Nat → ExecOracle) : Nat :=
  let fl : ESP01Flasher := ⟨args.port, args.baud⟩
  if (fl.check_esptool (execs 0)).1 = false then 1
  else
    let verify := args.verifyFlag && !args.noVerify
    let progress := !args.noProgress
    match args.action with
    | .info => 0
    | .mac => 0
    | .flash_id => 0
    | .read =>
        match args.file with
        | none => 1
        | some f =>
            if (fl.read_flash f args.address args.size progress (execs 1)).1
                && (fsA f).isSome then 0 else 1
    | .write =>
        match args.file with
        | none => 1
        | some f =>
            if (fl.write_flash fs0 f args.address verify progress args.eraseAll
                (execs 1)).1 then 0 else 1
    | .erase => if (fl.erase_flash (execs 1)).1 then 0 else 1
    | .backup =>
        let b := args.file.getD "esp01_backup.bin"
        if (fl.backup_firmware b (execs 1)).1 && (fsA b).isSome then 0 else 1
    | .at_firmware =>
        match args.file with
        | none => 1
        | some f => if (fl.write_at_firmware fs0 f verify (execs 1)).1 then 0 else 1
    | .verify =>
        match args.file with
        | none => 1
        | some f =>
            if (fl.verify_flash f args.address args.size fsA (execs 1)).1 then 0 else 1

/-- The exit status the ESP8266 CLI produces (same characterisation as
`esp01_exit_spec`, plus the `write_multiple` and `detect_size` actions). -/
def esp8266_exit_spec (args : Esp8266Args) (fs0 fsA : FS)
    (execs : Nat → ExecOracle) : Nat :=
  let fl : ESP8266Flasher := ⟨args.port, args.baud, args.flashSize⟩
  if (fl.check_esptool (execs 0)).1 = false then 1
  else
    let verify := args.verifyFlag && !args.noVerify
    let progress := !args.noProgress
    match args.action with
    | .info => 0
    | .mac => 0
    | .flash_id => 0
    | .detect_size => 0
    | .read =>
        match args.file with
        | none => 1
        | some f =>
            if (fl.read_flash f args.address args.size progress (execs 1)).1
                && (fsA f).isSome then 0 else 1
    | .write =>
        match args.file with
        | none => 1
        | some f =>
            if (fl.write_flash fs0 f args.address verify progress args.eraseAll
                (execs 1)).1 then 0 else 1
    | .write_multiple =>
        if esp8266_files_dict args = [] then 1
        else if (fl.write_multiple_files fs0 (esp8266_files_dict args) progress
            (execs 1)).1 then 0 else 1
    | .erase => if (fl.erase_flash (execs 1)).1 then 0 else 1
    | .backup =>
        let b := args.file.getD "esp8266_backup.bin"
        if (fl.backup_firmware b (execs 1)).1 && (fsA b).isSome then 0 else 1
    | .verify =>
        match args.file with
        | none => 1
        | some f =>
            if (fl.verify_flash f args.address args.size fsA (execs 1)).1 then 0 else 1

/-- ESP32 CLI write arguments with the firmware file present. -/
def esp32WriteArgs : Esp32Args :=
  ⟨"COM3", 115200, .write, some "fw.bin", none, none, none, 0, 0x400000, none⟩

/-- Claim C4, counterexample: on the ESP32 CLI the dispatched write operation
reports failure (the external tool exits with return code 1), yet the
process exits with status 0. -/
theorem c4_counterexample :
    (ESP32Flasher.write_flash ⟨"COM3", 115200⟩ smallFS "fw.bin" 0
        (.completed ⟨1, "", "boom"⟩)).1 = false ∧
    (esp32_main esp32WriteArgs smallFS (fun _ => .completed ⟨1, "", "boom"⟩)).1 = 0 :=
  ⟨rfl, rfl⟩

/-- Claim C4 (amended): the ESP32 CLI exits 1 exactly on a missing required
flag and 0 otherwise, ignoring the result of the dispatched operation; the ESP01
and ESP8266 CLIs exit 1 when the esptool availability check fails, when a
required `--file` is missing, or when the dispatched operation reports
failure (for read/backup also when the output file is absent afterwards),
exit 0 when it reports success, and always exit 0 for the informational
actions (info, mac, flash_id, detect_size) regardless of the operation
results. -/
theorem c4_exit_codes :
    (∀ (args : Esp32Args) (fs0 : FS) (outs : Nat → SpawnOutcome),
      (esp32_main args fs0 outs).1 = if esp32_missing_flag args then 1 else 0) ∧
    (∀ (args : Esp01Args) (fs0 fsA : FS) (execs : Nat → ExecOracle),
      (esp01_main args fs0 fsA execs).1 = esp01_exit_spec args fs0 fsA execs) ∧
    (∀ (args : Esp8266Args) (fs0 fsA : FS) (execs : Nat → ExecOracle),
      (esp8266_main args fs0 fsA execs).1 = esp8266_exit_spec args fs0 fsA execs) := by
  refine ⟨?_, ?_, ?_⟩
  · intro args fs0 outs
    rcases args with ⟨p, b, act, file, boot, pt, ap, addr, sz, part⟩
    cases act with
    | info => simp [esp32_main, esp32_missing_flag]
    | read => cases file <;> simp [esp32_main, esp32_missing_flag]
    | write => cases file <;> simp [esp32_main, esp32_missing_flag]
    | write_complete =>
        cases boot <;> cases pt <;> cases ap <;> simp [esp32_main, esp32_missing_flag]
    | erase => simp [esp32_main, esp32_missing_flag]
    | backup => simp [esp32_main, esp32_missing_flag]
    | read_partition =>
        cases part <;> cases file <;> simp [esp32_main, esp32_missing_flag]
  · intro args fs0 fsA execs
    rcases args with ⟨p, b, act, file, addr, sz, vf, np, ea, nv⟩
    by_cases hts : (ESP01Flasher.check_esptool ⟨p, b⟩ (execs 0)).1 = false
    · cases act <;> simp [esp01_main, esp01_exit_spec, hts]
    · cases act with
      | info => simp [esp01_main, esp01_exit_spec, hts]
      | mac => simp [esp01_main, esp01_exit_spec, hts]
      | flash_id => simp [esp01_main, esp01_exit_spec, hts]
      | read =>
          cases file with
          | none => simp [esp01_main, esp01_exit_spec, hts]
          | some f =>
              cases hr : (ESP01Flasher.read_flash ⟨p, b⟩ f addr sz (!np) (execs 1)).1 <;>
                cases hf : fsA f <;>
                  simp [esp01_main, esp01_exit_spec, hts, hr, hf]
      | write =>
          cases file with
          | none => simp [esp01_main, esp01_exit_spec, hts]
          | some f =>
              cases hw : (ESP01Flasher.write_flash ⟨p, b⟩ fs0 f addr (vf && !nv) (!np)
                  ea (execs 1)).1 <;>
                simp [esp01_main, esp01_exit_spec, hts, hw]
      | erase =>
          cases he : (ESP01Flasher.erase_flash ⟨p, b⟩ (execs 1)).1 <;>
            simp [esp01_main, esp01_exit_spec, hts, he]
      | backup =>
          cases hr : (ESP01Flasher.backup_firmware ⟨p, b⟩
              (file.getD "esp01_backup.bin") (execs 1)).1 <;>
            cases hf : fsA (file.getD "esp01_backup.bin") <;>
              simp [esp01_main, esp01_exit_spec, hts, hr, hf]
      | at_firmware =>
          cases file with
          | none => simp [esp01_main, esp01_exit_spec, hts]
          | some f =>
              cases hw : (ESP01Flasher.write_at_firmware ⟨p, b⟩ fs0 f (vf && !nv)
                  (execs 1)).1 <;>
                simp [esp01_main, esp01_exit_spec, hts, hw]
      | verify =>
          cases file with
          | none => simp [esp01_main, esp01_exit_spec, hts]
          | some f =>
              cases hv : (ESP01Flasher.verify_flash ⟨p, b⟩ f addr sz fsA (execs 1)).1 <;>
                simp [esp01_main, esp01_exit_spec, hts, hv]
  · intro args fs0 fsA execs
    rcases args with ⟨p, b, fsz, act, file, addr, sz, vf, np, ea, nv, boot, ap, sp, ba, aa, sa⟩
    by_cases hts : (ESP8266Flasher.check_esptool ⟨p, b, fsz⟩ (execs 0)).1 = false
    · cases act <;> simp [esp8266_main, esp8266_exit_spec, hts]
    · cases act with
      | info => simp [esp8266_main, esp8266_exit_spec, hts]
      | mac => simp [esp8266_main, esp8266_exit_spec, hts]
      | flash_id => simp [esp8266_main, esp8266_exit_spec, hts]
      | detect_size => simp [esp8266_main, esp8266_exit_spec, hts]
      | read =>
          cases file with
          | none => simp [esp8266_main, esp8266_exit_spec, hts]
          | some f =>
              cases hr : (ESP8266Flasher.read_flash ⟨p, b, fsz⟩ f addr sz (!np)
                  (execs 1)).1 <;>
                cases hf : fsA f <;>
                  simp [esp8266_main, esp8266_exit_spec, hts, hr, hf]
      | write =>
          cases file with
          | none => simp [esp8266_main, esp8266_exit_spec, hts]
          | some f =>
              cases hw : (ESP8266Flasher.write_flash ⟨p, b, fsz⟩ fs0 f addr (vf && !nv)
                  (!np) ea (execs 1)).1 <;>
                simp [esp8266_main, esp8266_exit_spec, hts, hw]
      | write_multiple =>
          by_cases hfd : esp8266_files_dict ⟨p, b, fsz, .write_multiple, file, addr, sz,
              vf, np, ea, nv, boot, ap, sp, ba, aa, sa⟩ = []
          · simp [esp8266_main, esp8266_exit_spec, hts, hfd]
          · cases hw : (ESP8266Flasher.write_multiple_files ⟨p, b, fsz⟩ fs0
                (esp8266_files_dict ⟨p, b, fsz, .write_multiple, file, addr, sz,
                  vf, np, ea, nv, boot, ap, sp, ba, aa, sa⟩) (!np) (execs 1)).1 <;>
              simp [esp8266_main, esp8266_exit_spec, hts, hfd, hw]
      | erase =>
          cases he : (ESP8266Flasher.erase_flash ⟨p, b, fsz⟩ (execs 1)).1 <;>
            simp [esp8266_main, esp8266_exit_spec, hts, he]
      | backup =>
          cases hr : (ESP8266Flasher.backup_firmware ⟨p, b, fsz⟩
              (file.getD "esp8266_backup.bin") (execs 1)).1 <;>
            cases hf : fsA (file.getD "esp8266_backup.bin") <;>
              simp [esp8266_main, esp8266_exit_spec, hts, hr, hf]
      | verify =>
          cases file with
          | none => simp [esp8266_main, esp8266_exit_spec, hts]
          | some f =>
              cases hv : (ESP8266Flasher.verify_flash ⟨p, b, fsz⟩ f addr sz fsA
                  (execs 1)).1 <;>
                simp [esp8266_main, esp8266_exit_spec, hts, hv]

/-- ESP01 CLI backup arguments without `--file`. -/
def esp01BackupArgsNoFile : Esp01Args :=
  ⟨"COM3", 115200, .backup, none, 0, 0x100000, false, false, false, false⟩

/-- ESP01 CLI read arguments without `--file`. -/
def esp01ReadArgsNoFile : Esp01Args :=
  ⟨"COM3", 115200, .read, none, 0, 0x100000, false, false, false, false⟩

/-- Filesystem holding the default ESP01 backup file. -/
def backupFS : FS := fun p => if p = "esp01_backup.bin" then some [1] else none

/-- Claim C5, counterexample: (a) a backup action without `--file` does not
exit with status 1 — the filename defaults and the run exits 0; (b) a read
action without `--file` does exit 1, but only after the esptool availability
check has already spawned an external process. -/
theorem c5_counterexample :
    (esp01_main esp01BackupArgsNoFile backupFS backupFS (fun _ => okExec)).1 = 0 ∧
    esp01_main esp01ReadArgsNoFile backupFS backupFS (fun _ => okExec) =
      (1, ["python -m esptool version"]) :=
  ⟨rfl, rfl⟩

/-- Claim C5 (amended): for the actions that require `--file` (read, write,
verify, and at_firmware on ESP01), a missing `--file` makes the ESP01 and
ESP8266 CLIs exit with status 1 having spawned only the esptool
availability check (every spawned command line is
`python -m esptool version`), and makes the ESP32 CLI exit with status 1
with no process spawned at all; a missing `--file` for backup does not exit:
the filename defaults to the per-chip backup name and the run proceeds
identically. -/
theorem c5_missing_file :
    (∀ (args : Esp01Args) (fs0 fsA : FS) (execs : Nat → ExecOracle),
      args.file = none →
      (args.action = .read ∨ args.action = .write ∨ args.action = .at_firmware ∨
        args.action = .verify) →
      esp01_main args fs0 fsA execs =
        (1, (ESP01Flasher.check_esptool ⟨args.port, args.baud⟩ (execs 0)).2) ∧
      ∀ c ∈ (esp01_main args fs0 fsA execs).2, c = "python -m esptool version") ∧
    (∀ (args : Esp8266Args) (fs0 fsA : FS) (execs : Nat → ExecOracle),
      args.file = none →
      (args.action = .read ∨ args.action = .write ∨ args.action = .verify) →
      esp8266_main args fs0 fsA execs =
        (1, (ESP8266Flasher.check_esptool ⟨args.port, args.baud, args.flashSize⟩
          (execs 0)).2) ∧
      ∀ c ∈ (esp8266_main args fs0 fsA execs).2, c = "python -m esptool version") ∧
    (∀ (args : Esp32Args) (fs0 : FS) (outs : Nat → SpawnOutcome),
      args.file = none → (args.action = .read ∨ args.action = .write) →
      esp32_main args fs0 outs = (1, [])) ∧
    (∀ (args : Esp01Args) (fs0 fsA : FS) (execs : Nat → ExecOracle),
      args.action = .backup →
      esp01_main { args with file := none } fs0 fsA execs =
        esp01_main { args with file := some "esp01_backup.bin" } fs0 fsA execs) ∧
    (∀ (args : Esp8266Args) (fs0 fsA : FS) (execs : Nat → ExecOracle),
      args.action = .backup →
      esp8266_main { args with file := none } fs0 fsA execs =
        esp8266_main { args with file := some "esp8266_backup.bin" } fs0 fsA execs) ∧
    (∀ (args : Esp32Args) (fs0 : FS) (outs : Nat → SpawnOutcome),
      args.action = .backup →
      esp32_main { args with file := none } fs0 outs =
        esp32_main { args with file := some "esp32_backup.bin" } fs0 outs) := by
  refine ⟨?_, ?_, ?_, ?_, ?_, ?_⟩
  · intro args fs0 fsA execs hfile hact
    rcases args with ⟨p, b, act, file, addr, sz, vf, np, ea, nv⟩
    simp only at hfile
    subst hfile
    have hmain : esp01_main ⟨p, b, act, none, addr, sz, vf, np, ea, nv⟩ fs0 fsA execs =
        (1, (ESP01Flasher.check_esptool ⟨p, b⟩ (execs 0)).2) := by
      by_cases hts : (ESP01Flasher.check_esptool ⟨p, b⟩ (execs 0)).1 = false
      · rcases hact with h | h | h | h <;> (simp only at h; subst h) <;>
          simp [esp01_main, hts]
      · rcases hact with h | h | h | h <;> (simp only at h; subst h) <;>
          simp [esp01_main, hts]
    refine ⟨hmain, ?_⟩
    rw [hmain]
    exact runCmdLoop_spawns_all_cmd _ _ _ _ _
  · intro args fs0 fsA execs hfile hact
    rcases args with ⟨p, b, fsz, act, file, addr, sz, vf, np, ea, nv, boot, ap, sp, ba, aa, sa⟩
    simp only at hfile
    subst hfile
    have hmain : esp8266_main ⟨p, b, fsz, act, none, addr, sz, vf, np, ea, nv,
        boot, ap, sp, ba, aa, sa⟩ fs0 fsA execs =
        (1, (ESP8266Flasher.check_esptool ⟨p, b, fsz⟩ (execs 0)).2) := by
      by_cases hts : (ESP8266Flasher.check_esptool ⟨p, b, fsz⟩ (execs 0)).1 = false
      · rcases hact with h | h | h <;> (simp only at h; subst h) <;>
          simp [esp8266_main, hts]
      · rcases hact with h | h | h <;> (simp only at h; subst h) <;>
          simp [esp8266_main, hts]
    refine ⟨hmain, ?_⟩
    rw [hmain]
    exact runCmdLoop_spawns_all_cmd _ _ _ _ _
  · intro args fs0 outs hfile hact
    rcases args with ⟨p, b, act, file, boot, pt, ap, addr, sz, part⟩
    simp only at hfile
    subst hfile
    rcases hact with h | h <;> (simp only at h; subst h) <;> simp [esp32_main]
  · intro args fs0 fsA execs hact
    rcases args with ⟨p, b, act, file, addr, sz, vf, np, ea, nv⟩
    simp only at hact
    subst hact
    simp [esp01_main]
  · intro args fs0 fsA execs hact
    rcases args with ⟨p, b, fsz, act, file, addr, sz, vf, np, ea, nv, boot, ap, sp, ba, aa, sa⟩
    simp only at hact
    subst hact
    simp [esp8266_main]
  · intro args fs0 outs hact
    rcases args with ⟨p, b, act, file, boot, pt, ap, addr, sz, part⟩
    simp only at hact
    subst hact
    simp [esp32_main]

/-- ESP32 CLI read arguments without `--file`. -/
def esp32ReadArgsNoFile : Esp32Args :=
  ⟨"COM3", 115200, .read, none, none, none, none, 0, 0x400000, none⟩

/-- Witness for C5 at concrete inputs. -/
theorem c5_missing_file_witness :
    esp01_main esp01ReadArgsNoFile backupFS backupFS (fun _ => okExec) =
      (1, ["python -m esptool version"]) ∧
    esp32_main esp32ReadArgsNoFile backupFS (fun _ => .completed ⟨0, "", ""⟩) = (1, []) ∧
    esp01_main esp01BackupArgsNoFile backupFS backupFS (fun _ => okExec) =
      esp01_main { esp01BackupArgsNoFile with file := some "esp01_backup.bin" }
        backupFS backupFS (fun _ => okExec) := by
  have h := c5_missing_file
  refine ⟨?_, ?_, ?_⟩
  · have h1 := (h.1 esp01ReadArgsNoFile backupFS backupFS (fun _ => okExec) rfl
      (Or.inl rfl)).1
    simpa using h1
  · exact h.2.2.1 esp32ReadArgsNoFile backupFS (fun _ => .completed ⟨0, "", ""⟩) rfl
      (Or.inl rfl)
  · exact h.2.2.2.1 esp01BackupArgsNoFile backupFS backupFS (fun _ => okExec) rfl

/-- Witness for C3 at concrete inputs: with `check=False` and a transient
error text, a retry does happen (more than one spawn). -/
theorem c3_retry_characterization_witness :
    1 < (ESP01Flasher.run_command ⟨"COM3", 115200⟩ "c" false timeoutExec 0).2.length := by
  have h := (c3_retry_characterization ⟨"COM3", 115200⟩ ⟨"COM3", 115200, "4MB"⟩
    "c" false timeoutExec 0).1
  exact h.mpr ⟨rfl, ⟨1, "", "timeout"⟩, rfl, by decide, by decide, by decide⟩

/-- Witness for C4 at concrete inputs. -/
theorem c4_exit_codes_witness :
    (esp32_main esp32WriteArgs smallFS (fun _ => .completed ⟨1, "", "boom"⟩)).1 =
      if esp32_missing_flag esp32WriteArgs then 1 else 0 :=
  c4_exit_codes.1 esp32WriteArgs smallFS (fun _ => .completed ⟨1, "", "boom"⟩)

/-- Witness for C9 at concrete inputs: with `--verify` given and `--no-verify`
absent, the issued write command contains the verify flag. -/
theorem c9_cli_verify_gating_witness :
    strContainsB (ESP01Flasher.write_flash_cmd ⟨"COM3", 115200⟩ "fw.bin" 0
        (true && !false) true false) "--verify" = (true && !false) :=
  (c9_cli_verify_gating true false).2.2.2.1
